import Mathlib

/-!
Shallow embedding of the markdown-site repository pieces that the verified
claims are about: the theme store (ThemeContext), the multi-provider AI chat
orchestration (convex aiChats generateResponse and its helpers), and the AI
image generation action (convex/aiImageGeneration.ts).

JavaScript strings are modelled as Lean `String`; string truthiness, `||`
defaulting and template interpolation of possibly-undefined values are made
explicit through small helper functions. Environment variables, the stored
chat database, vendor SDK calls and the storage layer are passed in as
explicit parameters, so an action becomes a pure function from (environment,
oracles, database, arguments) to a result together with the list of writes it
performed. A thrown JavaScript error is modelled as `Except.error` carrying
the error message string.
-/

namespace MarkdownSite

/-- Truthiness of a JavaScript `string | undefined | null` value: undefined,
null and the empty string are falsy. -/
def jsTruthy : Option String → Bool
  | none => false
  | some s => s ≠ ""

/-- Models the JavaScript expression `a || b` where `a` is a possibly-missing
string and the result is used as a string (e.g. `attachment.url || ""`). -/
def jsOrStr (a : Option String) (b : String) : String :=
  match a with
  | some s => if s ≠ "" then s else b
  | none => b

/-- Models the JavaScript expression `a || b` where both sides are
possibly-missing strings (e.g. `scraped.title || attachment.title`). -/
def jsOr (a b : Option String) : Option String :=
  if jsTruthy a then a else b

/-- Models the JavaScript expression `a || null` (e.g. the body of
`getApiKeyForProvider`): an unset or empty variable becomes `none`. -/
def jsOrNull (a : Option String) : Option String :=
  if jsTruthy a then a else none

/-- Models JavaScript template interpolation of a possibly-undefined string,
which prints the literal text `undefined` when the value is missing. -/
def jsInterp : Option String → String
  | some s => s
  | none => "undefined"

/-- Models the JavaScript `String.startsWith` test on code points. -/
def strStartsWith (s p : String) : Bool :=
  p.data.isPrefixOf s.data

/-- Substring membership on character lists, used to model the JavaScript
`String.includes` test. -/
def listIncludes (hay needle : List Char) : Bool :=
  match hay with
  | [] => needle.isEmpty
  | _ :: t => needle.isPrefixOf hay || listIncludes t needle

/-- Models the JavaScript `s.includes(sub)` test. -/
def strIncludes (s sub : String) : Bool :=
  listIncludes s.data sub.data

/-! Theme store, from the ThemeContext module. -/

/-- The four theme values of the site (the `Theme` union type). -/
inductive Theme
  | dark
  | light
  | tan
  | cloud
deriving DecidableEq, Repr

/-- The cycle order used by `toggleTheme`:
`const themes: Theme[] = ["dark", "light", "tan", "cloud"]`. -/
def themesList : List Theme := [Theme.dark, Theme.light, Theme.tan, Theme.cloud]

/-- Embeds `toggleTheme`: take the index of the current theme in the cycle
list and move to the next index modulo the list length. -/
def toggleTheme (theme : Theme) : Theme :=
  let currentIndex := themesList.indexOf theme
  let nextIndex := (currentIndex + 1) % themesList.length
  themesList.getD nextIndex Theme.dark

/-- Embeds `setTheme`, which stores exactly the requested theme value. -/
def setTheme (newTheme : Theme) : Theme := newTheme

/-- Embeds the validation test
`["dark", "light", "tan", "cloud"].includes(value)` together with the cast of
a raw attribute or localStorage string to the `Theme` type; a string outside
the list (including the empty, falsy string) is rejected. -/
def parseTheme (s : String) : Option Theme :=
  if s = "dark" then some Theme.dark
  else if s = "light" then some Theme.light
  else if s = "tan" then some Theme.tan
  else if s = "cloud" then some Theme.cloud
  else none

/-- Embeds `getInitialTheme`: prefer a valid `data-theme` document attribute
(set by the inline bootstrap script), then a valid persisted
`localStorage` value, then the configured default. `docAttr` and `stored` are
the raw strings found in those two places, `none` when absent. -/
def getInitialTheme (docAttr : Option String) (stored : Option String)
    (defaultTheme : Theme) : Theme :=
  match docAttr.bind parseTheme with
  | some t => t
  | none =>
    match stored.bind parseTheme with
    | some t => t
    | none => defaultTheme

/-! Provider dispatch and credential lookup, from the aiChats action module. -/

/-- The three chat-completion providers. -/
inductive Provider
  | anthropic
  | openai
  | google
deriving DecidableEq, Repr

/-- The string value of the provider union, as interpolated into error
messages by the handler. -/
def providerName : Provider → String
  | Provider.anthropic => "anthropic"
  | Provider.openai => "openai"
  | Provider.google => "google"

/-- Embeds `getProviderFromModel`: dispatch on the model-name starting text,
with anthropic as the default fallback. -/
def getProviderFromModel (model : String) : Provider :=
  if strStartsWith model "claude" then Provider.anthropic
  else if strStartsWith model "gpt" then Provider.openai
  else if strStartsWith model "gemini" then Provider.google
  else Provider.anthropic

/-- The environment variables read by the chat action. -/
structure Env where
  anthropicKey : Option String
  openaiKey : Option String
  googleKey : Option String
  promptStyle : Option String
  promptCommunity : Option String
  promptRules : Option String
  systemPromptEnv : Option String
  firecrawlKey : Option String
deriving DecidableEq, Repr

/-- Embeds `getApiKeyForProvider`: read the provider-specific environment
variable, returning `null` when unset or empty (`process.env.X || null`). -/
def getApiKeyForProvider (env : Env) (provider : Provider) : Option String :=
  match provider with
  | Provider.anthropic => jsOrNull env.anthropicKey
  | Provider.openai => jsOrNull env.openaiKey
  | Provider.google => jsOrNull env.googleKey

/-- The per-provider display configuration used by
`getNotConfiguredMessage`. -/
structure ProviderConfig where
  name : String
  envVar : String
  consoleUrl : String
  consoleName : String
deriving DecidableEq, Repr

/-- The `configs` table of `getNotConfiguredMessage`. -/
def providerConfig : Provider → ProviderConfig
  | Provider.anthropic =>
    { name := "Claude (Anthropic)"
      envVar := "ANTHROPIC_API_KEY"
      consoleUrl := "https://console.anthropic.com/"
      consoleName := "Anthropic Console" }
  | Provider.openai =>
    { name := "GPT (OpenAI)"
      envVar := "OPENAI_API_KEY"
      consoleUrl := "https://platform.openai.com/api-keys"
      consoleName := "OpenAI Platform" }
  | Provider.google =>
    { name := "Gemini (Google)"
      envVar := "GOOGLE_AI_API_KEY"
      consoleUrl := "https://aistudio.google.com/apikey"
      consoleName := "Google AI Studio" }

/-- Embeds `getNotConfiguredMessage`: the provider-specific setup
instructions returned when the credential environment variable is absent. -/
def getNotConfiguredMessage (provider : Provider) : String :=
  let config := providerConfig provider
  "**" ++ config.name ++ " is not configured.**\n\n" ++
  "To enable this model, add your `" ++ config.envVar ++
  "` to the Convex environment variables.\n\n" ++
  "**Setup steps:**\n" ++
  "1. Get an API key from [" ++ config.consoleName ++ "](" ++
  config.consoleUrl ++ ")\n" ++
  "2. Add it to Convex: `npx convex env set " ++ config.envVar ++
  " your-key-here`\n" ++
  "3. For production, set it in the [Convex Dashboard](https://dashboard.convex.dev/)\n\n" ++
  "See the [Convex environment variables docs](https://docs.convex.dev/production/environment-variables) for more details."

/-- The hardcoded default system prompt of the chat action. -/
def DEFAULT_SYSTEM_PROMPT : String :=
  "You are a helpful writing assistant. Help users write clearly and concisely.\n\n" ++
  "Always apply the rule of one:\n" ++
  "Focus on one person.\n" ++
  "Address one specific problem they are facing.\n" ++
  "Identify the single root cause of that problem.\n" ++
  "Explain the one thing the solution does differently.\n" ++
  "End by asking for one clear action.\n\n" ++
  "Follow these guidelines:\n" ++
  "Write in a clear and direct style.\n" ++
  "Avoid jargon and unnecessary complexity.\n" ++
  "Use short sentences and short paragraphs.\n" ++
  "Be concise but thorough.\n" ++
  "Do not use em dashes.\n" ++
  "Format responses in markdown when appropriate."

/-- Embeds `buildSystemPrompt`: join the non-blank split prompt parts with a
separator, else fall back to the single prompt variable, else the default. -/
def buildSystemPrompt (env : Env) : String :=
  let part1 := jsOrStr env.promptStyle ""
  let part2 := jsOrStr env.promptCommunity ""
  let part3 := jsOrStr env.promptRules ""
  let parts := [part1, part2, part3].filter (fun p => p.trim ≠ "")
  if parts.length > 0 then String.intercalate "\n\n---\n\n" parts
  else jsOrStr env.systemPromptEnv DEFAULT_SYSTEM_PROMPT

/-! Chat data model and provider-agnostic message assembly, from the aiChats
action module. -/

/-- The attachment discriminator (`"image"` or `"link"`). -/
inductive AttachType
  | image
  | link
deriving DecidableEq, Repr

/-- A chat attachment argument: an image referencing a storage id, or a link
with an optional pre-scraped page text and title. Storage ids are modelled as
natural numbers. -/
structure Attachment where
  type : AttachType
  storageId : Option Nat
  url : Option String
  scrapedContent : Option String
  title : Option String
deriving DecidableEq, Repr

/-- A chat message role. -/
inductive Role
  | user
  | assistant
deriving DecidableEq, Repr

/-- A stored chat message: role, text content and optional attachments. -/
structure ChatMessage where
  role : Role
  content : String
  attachments : Option (List Attachment)
deriving DecidableEq, Repr

/-- A stored chat: its ordered message history and optional page context. -/
structure Chat where
  messages : List ChatMessage
  pageContext : Option String
deriving DecidableEq, Repr

/-- A provider-agnostic content block (`TextBlockParam` or an url-sourced
`ImageBlockParam`). -/
inductive ContentBlock
  | text (text : String)
  | image (url : String)
deriving DecidableEq, Repr

/-- Message content as sent to a provider: either a plain string or an
ordered list of content blocks. -/
inductive MsgContent
  | str (s : String)
  | blocks (parts : List ContentBlock)
deriving DecidableEq, Repr

/-- A provider-agnostic formatted message. -/
structure FormattedMessage where
  role : Role
  content : MsgContent
deriving DecidableEq, Repr

/-- A scraping result (`scrapeUrl`): markdown content and optional page
title. -/
structure ScrapeResult where
  content : String
  title : Option String
deriving DecidableEq, Repr

/-- The external collaborators of `generateResponse`, passed explicitly:
the Firecrawl scrape call (modelling the SDK call after its success and
markdown checks, `none` on any failure), the storage url query
(`getStorageUrlInternal`), and the selected vendor completion call
(provider, api key, model, system prompt, messages), which either returns
the extracted reply text or throws. -/
structure Oracles where
  scrape : String → Option ScrapeResult
  storageUrl : Nat → Option String
  providerCall : Provider → String → String → String → List FormattedMessage →
    Except String String

/-- The arguments of the `generateResponse` action. Chat ids are modelled as
natural numbers. -/
structure GenArgs where
  chatId : Nat
  userMessage : String
  model : Option String
  pageContext : Option String
  attachments : Option (List Attachment)
deriving DecidableEq, Repr

/-- The model actually used: `args.model || "claude-sonnet-4-20250514"`
(the handler defaults an absent model argument). -/
def selectedModelOf (args : GenArgs) : String :=
  args.model.getD "claude-sonnet-4-20250514"

/-- Embeds `scrapeUrl`: absent Firecrawl credential silently disables
scraping; otherwise the scrape call runs with every failure mapped to
`none`. -/
def scrapeUrl (env : Env) (o : Oracles) (url : String) : Option ScrapeResult :=
  if jsTruthy env.firecrawlKey then o.scrape url else none

/-- Embeds the per-attachment scraping step of `generateResponse`: an
unscraped link attachment with a truthy url gets scraped, and on success its
content and title are filled in; everything else passes through unchanged. -/
def processAttachment (env : Env) (o : Oracles) (attachment : Attachment) :
    Attachment :=
  if attachment.type == AttachType.link && jsTruthy attachment.url &&
      !jsTruthy attachment.scrapedContent then
    match scrapeUrl env o (jsInterp attachment.url) with
    | some scraped =>
      { attachment with
        scrapedContent := some scraped.content
        title := jsOr scraped.title attachment.title }
    | none => attachment
  else attachment

/-- Embeds the attachment-processing block of the handler, which maps the
scraping step over the attachments only when the array is present and
non-empty. -/
def processAttachments (env : Env) (o : Oracles)
    (attachments : Option (List Attachment)) : Option (List Attachment) :=
  match attachments with
  | none => none
  | some l =>
    if l.length > 0 then some (l.map (processAttachment env o)) else some l

/-- Embeds the per-attachment content-block construction shared by the
history loop and the new-message block of the handler: an image attachment
with a storage id contributes an image block when its url resolves truthy;
a link attachment contributes one text block carrying the url and any
scraped content, when that text is non-empty. -/
def attachmentParts (storageUrl : Nat → Option String)
    (attachment : Attachment) : List ContentBlock :=
  match attachment.type with
  | AttachType.image =>
    match attachment.storageId with
    | some sid =>
      match storageUrl sid with
      | some imageUrl =>
        if imageUrl ≠ "" then [ContentBlock.image imageUrl] else []
      | none => []
    | none => []
  | AttachType.link =>
    let linkText := jsOrStr attachment.url ""
    let linkText :=
      if jsTruthy attachment.scrapedContent then
        linkText ++ "\n\nContent from " ++ jsInterp attachment.url ++ ":\n" ++
          (attachment.scrapedContent.getD "")
      else linkText
    if linkText ≠ "" then [ContentBlock.text linkText] else []

/-- Embeds the content-parts construction for a user turn: a text block for
non-empty message text, followed by the blocks of each attachment in
order. -/
def buildUserParts (storageUrl : Nat → Option String) (content : String)
    (attachments : Option (List Attachment)) : List ContentBlock :=
  let base := if content ≠ "" then [ContentBlock.text content] else []
  let rest :=
    match attachments with
    | some l => l.flatMap (attachmentParts storageUrl)
    | none => []
  base ++ rest

/-- Embeds the collapse rule applied to assembled content parts: a single
text block is sent as a plain string, anything else as the block list. -/
def collapseParts : List ContentBlock → MsgContent
  | [ContentBlock.text t] => MsgContent.str t
  | parts => MsgContent.blocks parts

/-- Embeds the history-conversion loop of the handler: an assistant message
keeps its plain string content; a user message is rebuilt from its text and
attachments. -/
def formatHistoryMessage (storageUrl : Nat → Option String)
    (msg : ChatMessage) : FormattedMessage :=
  match msg.role with
  | Role.assistant => { role := Role.assistant, content := MsgContent.str msg.content }
  | Role.user =>
    { role := Role.user
      content := collapseParts (buildUserParts storageUrl msg.content msg.attachments) }

/-- The formatted new user message appended after the history (the
`newMessageContent` block of the handler). -/
def newUserMessage (storageUrl : Nat → Option String) (userMessage : String)
    (processedAttachments : Option (List Attachment)) : FormattedMessage :=
  { role := Role.user
    content := collapseParts (buildUserParts storageUrl userMessage processedAttachments) }

/-- Embeds the message-assembly of the handler: take the last 20 history
messages (`chat.messages.slice(-20)`, which is `drop (length - 20)` under
truncated subtraction), convert each, and append the new user message. -/
def buildFormattedMessages (storageUrl : Nat → Option String)
    (history : List ChatMessage) (userMessage : String)
    (processedAttachments : Option (List Attachment)) : List FormattedMessage :=
  let recentMessages := history.drop (history.length - 20)
  recentMessages.map (formatHistoryMessage storageUrl) ++
    [newUserMessage storageUrl userMessage processedAttachments]

/-- Embeds the page-context extension of the system prompt:
`args.pageContext || chat.pageContext` appended when truthy. -/
def fullSystemPrompt (env : Env) (argsPageContext chatPageContext : Option String) :
    String :=
  let base := buildSystemPrompt env
  let pageContent := jsOr argsPageContext chatPageContext
  if jsTruthy pageContent then
    base ++
      "\n\n---\n\nThe user is viewing a page with the following content. Use this as context for your responses:\n\n" ++
      (pageContent.getD "")
  else base

/-- The observable outcome of a `generateResponse` run: the returned string,
the assistant-message contents persisted through `addAssistantMessage`, and
the provider invocation made, when one was (provider and the message list
handed to it). -/
structure GenResult where
  returned : String
  persisted : List String
  sent : Option (Provider × List FormattedMessage)
deriving DecidableEq, Repr

/-- Embeds the `generateResponse` action handler. The stored-chat database is
passed as a lookup function (`getAIChatInternal`). A thrown error is
`Except.error`; in particular the handler throws `Chat not found` when the
chat id does not resolve, and a vendor-call failure is caught and converted
into an error-carrying assistant message. -/
def generateResponse (env : Env) (o : Oracles) (db : Nat → Option Chat)
    (args : GenArgs) : Except String GenResult :=
  let selectedModel := selectedModelOf args
  let provider := getProviderFromModel selectedModel
  match getApiKeyForProvider env provider with
  | none =>
    let notConfiguredMessage := getNotConfiguredMessage provider
    Except.ok
      { returned := notConfiguredMessage
        persisted := [notConfiguredMessage]
        sent := none }
  | some apiKey =>
    match db args.chatId with
    | none => Except.error "Chat not found"
    | some chat =>
      let systemPrompt := fullSystemPrompt env args.pageContext chat.pageContext
      let processedAttachments := processAttachments env o args.attachments
      let formattedMessages :=
        buildFormattedMessages o.storageUrl chat.messages args.userMessage
          processedAttachments
      let assistantMessage :=
        match o.providerCall provider apiKey selectedModel systemPrompt
            formattedMessages with
        | Except.ok s => s
        | Except.error e =>
          "**Error from " ++ providerName provider ++ ":** " ++ e
      Except.ok
        { returned := assistantMessage
          persisted := [assistantMessage]
          sent := some (provider, formattedMessages) }

/-! Gemini wire-schema translation, from `callGeminiApi`. -/

/-- A part of a Gemini `Content`: either text or inline binary data. -/
inductive GeminiPart
  | text (t : String)
  | inlineData (mimeType : String) (data : String)
deriving DecidableEq, Repr

/-- A Gemini `Content` entry: a role string and its parts. -/
structure GeminiContent where
  role : String
  parts : List GeminiPart
deriving DecidableEq, Repr

/-- The Gemini role mapping of `callGeminiApi`:
`msg.role === "assistant" ? "model" : "user"`. -/
def geminiRole : Role → String
  | Role.assistant => "model"
  | Role.user => "user"

/-- Embeds the block-conversion loop of `callGeminiApi`: text blocks are
kept, image blocks are skipped (the code comments this as not implemented
for Gemini). -/
def toGeminiParts : List ContentBlock → List GeminiPart
  | [] => []
  | ContentBlock.text t :: rest => GeminiPart.text t :: toGeminiParts rest
  | ContentBlock.image _ :: rest => toGeminiParts rest

/-- Embeds the message-conversion loop of `callGeminiApi`: a plain-string
message becomes one text part; a block message keeps only its text blocks
and is dropped entirely when no part remains. -/
def toGeminiMessages : List FormattedMessage → List GeminiContent
  | [] => []
  | msg :: rest =>
    match msg.content with
    | MsgContent.str s =>
      { role := geminiRole msg.role, parts := [GeminiPart.text s] } ::
        toGeminiMessages rest
    | MsgContent.blocks bs =>
      let parts := toGeminiParts bs
      if parts.length > 0 then
        { role := geminiRole msg.role, parts := parts } :: toGeminiMessages rest
      else toGeminiMessages rest

/-- Tests whether a Gemini part carries inline (image) data rather than
text. -/
def geminiPartIsImage : GeminiPart → Bool
  | GeminiPart.inlineData _ _ => true
  | GeminiPart.text _ => false

/-- Tests whether any message of a Gemini payload contains an inline-data
part. -/
def geminiPayloadHasImage (payload : List GeminiContent) : Bool :=
  payload.any (fun c => c.parts.any geminiPartIsImage)

/-! AI image generation, from convex/aiImageGeneration.ts. -/

/-- The two accepted image models. -/
inductive ImageModel
  | geminiFlashExp
  | imagen3
deriving DecidableEq, Repr

/-- The literal model identifier strings. -/
def imageModelName : ImageModel → String
  | ImageModel.geminiFlashExp => "gemini-2.0-flash-exp-image-generation"
  | ImageModel.imagen3 => "imagen-3.0-generate-002"

/-- The arguments of the `generateImage` action. The aspect-ratio argument
is one of the validated ratio strings when present. -/
structure ImageArgs where
  sessionId : String
  prompt : String
  model : ImageModel
  aspect : Option String
deriving DecidableEq, Repr

/-- The environment read by `generateImage`. -/
structure ImageEnv where
  googleKey : Option String
deriving DecidableEq, Repr

/-- A metadata record persisted through `saveGeneratedImage`. -/
structure ImageMeta where
  sessionId : String
  prompt : String
  model : String
  storageId : Nat
  mimeType : String
deriving DecidableEq, Repr

/-- The external collaborators of `generateImage`: the Gemini Flash
multimodal call (returning the extracted inline image part as
mime type and base64 data, `none` when the response holds no image part) and
the Imagen call (returning the base64 bytes of the single generated image,
`none` when absent), each able to throw; plus the storage layer, whose
`store` assigns a storage id to a stored blob (mime type and data) and whose
`getUrl` resolves a storage id. Storage and mutation writes are modelled as
total. -/
structure ImageOracles where
  flashCall : String → Except String (Option (String × String))
  imagenCall : String → String → Except String (Option String)
  store : String → String → Nat
  getUrl : Nat → Option String

/-- The observable outcome of a `generateImage` run: the returned
discriminated result fields together with the blobs stored and the metadata
records saved. -/
structure ImageOutcome where
  success : Bool
  storageId : Option Nat
  url : Option String
  error : Option String
  storedBlobs : List (String × String)
  savedMeta : List ImageMeta
deriving DecidableEq, Repr

/-- The `success:false` result with a given error message and no storage
effects. -/
def failResult (e : String) : ImageOutcome :=
  { success := false, storageId := none, url := none, error := some e
    storedBlobs := [], savedMeta := [] }

/-- The in-try early return used when no image part came back. -/
def noImageResult : ImageOutcome :=
  failResult "No image was generated. Try a different prompt."

/-- The missing-credential message of `generateImage`. -/
def imageNotConfiguredMessage : String :=
  "**Gemini Image Generation is not configured.**\n\n" ++
  "To use image generation, add your `GOOGLE_AI_API_KEY` to the Convex environment variables.\n\n" ++
  "**Setup steps:**\n" ++
  "1. Get an API key from [Google AI Studio](https://aistudio.google.com/apikey)\n" ++
  "2. Add it to Convex: `npx convex env set GOOGLE_AI_API_KEY your-key-here`\n" ++
  "3. For production, set it in the [Convex Dashboard](https://dashboard.convex.dev/)\n\n" ++
  "See the [Convex environment variables docs](https://docs.convex.dev/production/environment-variables) for more details."

/-- The rate-limit friendly message of the catch block. -/
def rateLimitMessage : String :=
  "**Rate limit exceeded.** Please try again in a few moments."

/-- The safety-filter friendly message of the catch block. -/
def safetyMessage : String :=
  "**Image generation blocked.** The prompt may have triggered content safety filters. Try rephrasing your prompt."

/-- Embeds the store-then-save tail of the try block: store the decoded
blob, resolve its url (`url || undefined`), save the metadata record, and
return the success result. -/
def storeAndReturn (o : ImageOracles) (args : ImageArgs) (mimeType data : String) :
    ImageOutcome :=
  let storageId := o.store mimeType data
  let url := o.getUrl storageId
  { success := true
    storageId := some storageId
    url := jsOrNull url
    error := none
    storedBlobs := [(mimeType, data)]
    savedMeta := [{ sessionId := args.sessionId, prompt := args.prompt
                    model := imageModelName args.model, storageId := storageId
                    mimeType := mimeType }] }

/-- Embeds the try block of `generateImage`: dispatch on the model, extract
the image payload (throwing vendor calls propagate to the catch), return the
no-image result when nothing came back, else store and save. The Imagen call
receives `args.aspectRatio || "1:1"`. -/
def generateImageInner (o : ImageOracles) (args : ImageArgs) :
    Except String ImageOutcome :=
  match args.model with
  | ImageModel.geminiFlashExp =>
    match o.flashCall args.prompt with
    | Except.error e => Except.error e
    | Except.ok none => Except.ok noImageResult
    | Except.ok (some (mimeType, data)) =>
      Except.ok (storeAndReturn o args mimeType data)
  | ImageModel.imagen3 =>
    match o.imagenCall args.prompt (args.aspect.getD "1:1") with
    | Except.error e => Except.error e
    | Except.ok none => Except.ok noImageResult
    | Except.ok (some data) =>
      Except.ok (storeAndReturn o args "image/png" data)

/-- Embeds the `generateImage` action handler: missing credential short
circuit, then the try block with its catch mapping thrown error text to the
rate-limit, safety, or generic failure message. The handler itself never
throws: every path produces an `ImageOutcome`. -/
def generateImage (env : ImageEnv) (o : ImageOracles) (args : ImageArgs) :
    ImageOutcome :=
  if !jsTruthy env.googleKey then failResult imageNotConfiguredMessage
  else
    match generateImageInner o args with
    | Except.ok r => r
    | Except.error errorMessage =>
      if strIncludes errorMessage "quota" || strIncludes errorMessage "rate" then
        failResult rateLimitMessage
      else if strIncludes errorMessage "safety" || strIncludes errorMessage "blocked" then
        failResult safetyMessage
      else failResult ("**Image generation failed:** " ++ errorMessage)

/-! Helper lemmas. -/

/-- A model name starting with `gpt` does not start with `claude`. -/
theorem gpt_not_claude (m : String) (h : strStartsWith m "gpt" = true) :
    strStartsWith m "claude" = false := by
  unfold strStartsWith at h ⊢
  rw [ List.isPrefixOf_iff_prefix] at h
  obtain ⟨t, ht⟩ := h
  rw [show ("claude".data.isPrefixOf m.data) = ("claude".data.isPrefixOf ("gpt".data ++ t)) by rw [ht]]
  rfl

/-- A model name starting with `gemini` does not start with `claude`. -/
theorem gemini_not_claude (m : String) (h : strStartsWith m "gemini" = true) :
    strStartsWith m "claude" = false := by
  unfold strStartsWith at h ⊢
  rw [ List.isPrefixOf_iff_prefix] at h
  obtain ⟨t, ht⟩ := h
  rw [show ("claude".data.isPrefixOf m.data) = ("claude".data.isPrefixOf ("gemini".data ++ t)) by rw [ht]]
  rfl

/-- A model name starting with `gemini` does not start with `gpt`. -/
theorem gemini_not_gpt (m : String) (h : strStartsWith m "gemini" = true) :
    strStartsWith m "gpt" = false := by
  unfold strStartsWith at h ⊢
  rw [ List.isPrefixOf_iff_prefix] at h
  obtain ⟨t, ht⟩ := h
  rw [show ("gpt".data.isPrefixOf m.data) = ("gpt".data.isPrefixOf ("gemini".data ++ t)) by rw [ht]]
  rfl

/-- CLAIM C4. Provider selection is a pure function of the model-name
starting text: a name starting with `claude` selects anthropic, `gpt`
selects openai, `gemini` selects google, and any name matching none of the
three selects anthropic as the default. -/
theorem claim4_provider_dispatch :
    (∀ m, strStartsWith m "claude" = true →
      getProviderFromModel m = Provider.anthropic) ∧
    (∀ m, strStartsWith m "gpt" = true →
      getProviderFromModel m = Provider.openai) ∧
    (∀ m, strStartsWith m "gemini" = true →
      getProviderFromModel m = Provider.google) ∧
    (∀ m, strStartsWith m "claude" = false → strStartsWith m "gpt" = false →
      strStartsWith m "gemini" = false →
      getProviderFromModel m = Provider.anthropic) := by
  refine ⟨fun m h => ?_, fun m h => ?_, fun m h => ?_, fun m h1 h2 h3 => ?_⟩
  · simp [getProviderFromModel, h]
  · simp [getProviderFromModel, h, gpt_not_claude m h]
  · simp [getProviderFromModel, h, gemini_not_claude m h, gemini_not_gpt m h]
  · simp [getProviderFromModel, h1, h2, h3]

/-- WITNESS for C4: the dispatch evaluated on the three shipped model names
and on an unrecognized one. -/
theorem claim4_provider_dispatch_witness :
    getProviderFromModel "claude-sonnet-4-20250514" = Provider.anthropic ∧
    getProviderFromModel "gpt-4o" = Provider.openai ∧
    getProviderFromModel "gemini-2.0-flash" = Provider.google ∧
    getProviderFromModel "mistral-large" = Provider.anthropic :=
  ⟨claim4_provider_dispatch.1 "claude-sonnet-4-20250514" (by decide),
   claim4_provider_dispatch.2.1 "gpt-4o" (by decide),
   claim4_provider_dispatch.2.2.1 "gemini-2.0-flash" (by decide),
   claim4_provider_dispatch.2.2.2 "mistral-large" (by decide) (by decide) (by decide)⟩

/-- CLAIM C5. The theme toggle follows the fixed cyclic order
dark → light → tan → cloud → dark, and four toggles from any of the four
values return the original value. -/
theorem claim5_theme_cycle :
    toggleTheme Theme.dark = Theme.light ∧
    toggleTheme Theme.light = Theme.tan ∧
    toggleTheme Theme.tan = Theme.cloud ∧
    toggleTheme Theme.cloud = Theme.dark ∧
    ∀ t : Theme, toggleTheme (toggleTheme (toggleTheme (toggleTheme t))) = t := by
  refine ⟨rfl, rfl, rfl, rfl, fun t => ?_⟩
  cases t <;> rfl

/-- CLAIM C8. The translation to the Gemini wire schema keeps only text
blocks, so the payload sent to Gemini never contains inline image data, for
every provider-agnostic message list. -/
theorem claim8_gemini_drops_images (messages : List FormattedMessage) :
    geminiPayloadHasImage (toGeminiMessages messages) = false := by
  induction messages with
  | nil => rfl
  | cons msg rest ih =>
    have parts_text : ∀ bs : List ContentBlock,
        (toGeminiParts bs).any geminiPartIsImage = false := by
      intro bs
      induction bs with
      | nil => rfl
      | cons b bs ihb => cases b <;> simp [toGeminiParts, geminiPartIsImage, ihb]
    cases msg with
    | mk role content =>
      cases content with
      | str s =>
        simp [toGeminiMessages, geminiPayloadHasImage, geminiPartIsImage] at ih ⊢
        exact ih
      | blocks bs =>
        by_cases hlen : (toGeminiParts bs).length > 0
        · simp only [toGeminiMessages, hlen, if_pos]
          simp [geminiPayloadHasImage] at ih ⊢
          exact ⟨by simpa using parts_text bs, ih⟩
        · simp only [toGeminiMessages, hlen, if_neg]
          simpa [geminiPayloadHasImage] using ih

/-- CLAIM C10. The theme state stays inside the four-value set: initial
resolution accepts only the four valid strings (a valid document attribute
wins, else a valid persisted value, else the default is used), and both
setTheme and toggleTheme map theme values to members of the set. -/
theorem claim10_theme_invariant :
    (∀ s t stored dflt, parseTheme s = some t →
      getInitialTheme (some s) stored dflt = t) ∧
    (∀ docAttr s t dflt, docAttr.bind parseTheme = none → parseTheme s = some t →
      getInitialTheme docAttr (some s) dflt = t) ∧
    (∀ docAttr stored dflt, docAttr.bind parseTheme = none →
      stored.bind parseTheme = none → getInitialTheme docAttr stored dflt = dflt) ∧
    (∀ t, toggleTheme t ∈ themesList) ∧
    (∀ t, setTheme t ∈ themesList) := by
  refine ⟨fun s t stored dflt h => ?_, fun docAttr s t dflt h1 h2 => ?_,
    fun docAttr stored dflt h1 h2 => ?_, fun t => ?_, fun t => ?_⟩
  · simp [getInitialTheme, h]
  · simp [getInitialTheme, h1, h2]
  · simp [getInitialTheme, h1, h2]
  · cases t <;> decide
  · cases t <;> decide

/-- WITNESS for C10: initial resolution on concrete raw strings, rejecting
an invalid attribute, and accepting a valid persisted value. -/
theorem claim10_theme_invariant_witness :
    getInitialTheme (some "cloud") (some "light") Theme.tan = Theme.cloud ∧
    getInitialTheme (some "solarized") (some "light") Theme.tan = Theme.light ∧
    getInitialTheme (some "solarized") (some "") Theme.tan = Theme.tan :=
  ⟨claim10_theme_invariant.1 "cloud" Theme.cloud (some "light") Theme.tan (by decide),
   claim10_theme_invariant.2.1 (some "solarized") "light" Theme.light Theme.tan
     (by decide) (by decide),
   claim10_theme_invariant.2.2.1 (some "solarized") (some "") Theme.tan
     (by decide) (by decide)⟩

/-! Concrete fixtures for image-generation witnesses. -/

/-- An image environment with no Google credential. -/
def imgEnvNoKey : ImageEnv := { googleKey := none }

/-- An image environment with a Google credential. -/
def imgEnvWithKey : ImageEnv := { googleKey := some "gk" }

/-- An oracle whose vendor calls succeed with a fixed image payload. -/
def imgOracleOk : ImageOracles :=
  { flashCall := fun _ => Except.ok (some ("image/png", "QUJD"))
    imagenCall := fun _ _ => Except.ok (some "QUJD")
    store := fun _ _ => 7
    getUrl := fun _ => some "https://storage.example/7" }

/-- An oracle whose vendor calls throw a fixed error message. -/
def imgOracleThrow (e : String) : ImageOracles :=
  { flashCall := fun _ => Except.error e
    imagenCall := fun _ _ => Except.error e
    store := fun _ _ => 7
    getUrl := fun _ => some "https://storage.example/7" }

/-- Concrete arguments selecting the Gemini Flash image model. -/
def imgArgsFlash : ImageArgs :=
  { sessionId := "session-1", prompt := "a watercolor fox"
    model := ImageModel.geminiFlashExp, aspect := none }

/-- CLAIM C6. When the GOOGLE_AI_API_KEY environment variable is absent,
`generateImage` returns `success := false` with an error containing the text
`not configured`, stores no blob and writes no metadata record. -/
theorem claim6_image_missing_key (env : ImageEnv) (o : ImageOracles)
    (args : ImageArgs) (h : env.googleKey = none) :
    (generateImage env o args).success = false ∧
    (∃ pre post,
      (generateImage env o args).error = some (pre ++ "not configured" ++ post)) ∧
    (generateImage env o args).storedBlobs = [] ∧
    (generateImage env o args).savedMeta = [] := by
  have hres : generateImage env o args = failResult imageNotConfiguredMessage := by
    simp [generateImage, h, jsTruthy]
  refine ⟨by simp [hres, failResult], ?_, by simp [hres, failResult],
    by simp [hres, failResult]⟩
  refine ⟨"**Gemini Image Generation is ",
    ".**\n\n" ++
    "To use image generation, add your `GOOGLE_AI_API_KEY` to the Convex environment variables.\n\n" ++
    "**Setup steps:**\n" ++
    "1. Get an API key from [Google AI Studio](https://aistudio.google.com/apikey)\n" ++
    "2. Add it to Convex: `npx convex env set GOOGLE_AI_API_KEY your-key-here`\n" ++
    "3. For production, set it in the [Convex Dashboard](https://dashboard.convex.dev/)\n\n" ++
    "See the [Convex environment variables docs](https://docs.convex.dev/production/environment-variables) for more details.", ?_⟩
  rw [hres]
  rfl

/-- WITNESS for C6: the missing-key run on a concrete environment, oracle and
arguments. -/
theorem claim6_image_missing_key_witness :
    (generateImage imgEnvNoKey imgOracleOk imgArgsFlash).success = false ∧
    (∃ pre post,
      (generateImage imgEnvNoKey imgOracleOk imgArgsFlash).error =
        some (pre ++ "not configured" ++ post)) ∧
    (generateImage imgEnvNoKey imgOracleOk imgArgsFlash).storedBlobs = [] ∧
    (generateImage imgEnvNoKey imgOracleOk imgArgsFlash).savedMeta = [] :=
  claim6_image_missing_key imgEnvNoKey imgOracleOk imgArgsFlash rfl

/-- Helper for C7: every successful value of the try block is a discriminated
result (success with no error, or failure with an error message). -/
theorem generateImageInner_discriminated (o : ImageOracles) (args : ImageArgs)
    (r : ImageOutcome) (h : generateImageInner o args = Except.ok r) :
    (r.success = true ∧ r.error = none) ∨ (r.success = false ∧ r.error ≠ none) := by
  obtain ⟨sessionId, prompt, model, aspect⟩ := args
  cases model with
  | geminiFlashExp =>
    unfold generateImageInner at h
    cases hc : o.flashCall prompt with
    | error e => rw [hc] at h; cases h
    | ok v =>
      rw [hc] at h
      cases v with
      | none =>
        cases h
        right; exact ⟨rfl, by simp [noImageResult, failResult]⟩
      | some p =>
        cases h
        left; exact ⟨rfl, rfl⟩
  | imagen3 =>
    unfold generateImageInner at h
    cases hc : o.imagenCall prompt (aspect.getD "1:1") with
    | error e => rw [hc] at h; cases h
    | ok v =>
      rw [hc] at h
      cases v with
      | none =>
        cases h
        right; exact ⟨rfl, by simp [noImageResult, failResult]⟩
      | some data =>
        cases h
        left; exact ⟨rfl, rfl⟩

/-- Helper: `generateImage` always returns a discriminated result — success
with no error, or failure with an error message. -/
theorem generateImage_discriminated (env : ImageEnv) (o : ImageOracles)
    (args : ImageArgs) :
    ((generateImage env o args).success = true ∧
      (generateImage env o args).error = none) ∨
    ((generateImage env o args).success = false ∧
      (generateImage env o args).error ≠ none) := by
  by_cases hk : jsTruthy env.googleKey
  · cases hi : generateImageInner o args with
    | ok r =>
      have hres : generateImage env o args = r := by
        simp [generateImage, hk, hi]
      rw [hres]
      exact generateImageInner_discriminated o args r hi
    | error e =>
      have hres : generateImage env o args =
          (if strIncludes e "quota" || strIncludes e "rate" then
            failResult rateLimitMessage
          else if strIncludes e "safety" || strIncludes e "blocked" then
            failResult safetyMessage
          else failResult ("**Image generation failed:** " ++ e)) := by
        simp [generateImage, hk, hi]
      rw [hres]
      right
      split <;> try split
      all_goals simp [failResult]
  · simp only [Bool.not_eq_true] at hk
    right
    constructor <;> simp [generateImage, hk, failResult]

/-- COUNTEREXAMPLE to C7 as stated: the claim says a safety-filter message is
returned whenever the thrown error text mentions `safety` or `blocked`, but
the catch block tests the rate-limit words first, so the concrete thrown
error `blocked: rate limit` is answered with the rate-limit message, not the
safety message. -/
theorem claim7_counterexample :
    ¬ (∀ (env : ImageEnv) (o : ImageOracles) (args : ImageArgs) (e : String),
        jsTruthy env.googleKey = true →
        generateImageInner o args = Except.error e →
        (strIncludes e "safety" || strIncludes e "blocked") = true →
        (generateImage env o args).error = some safetyMessage) := by
  intro h
  have hres := h imgEnvWithKey (imgOracleThrow "blocked: rate limit") imgArgsFlash
    "blocked: rate limit" (by decide) rfl (by decide)
  rw [show generateImage imgEnvWithKey (imgOracleThrow "blocked: rate limit")
      imgArgsFlash = failResult rateLimitMessage from rfl] at hres
  exact absurd hres (by decide)

/-- CLAIM C7 (amended). `generateImage` never throws and always returns a
discriminated success/error result; a missing credential yields the
not-configured message, a thrown error mentioning `quota` or `rate` yields
the rate-limit message, and a thrown error mentioning `safety` or `blocked`
yields the safety-filter message provided it does not also mention `quota`
or `rate` (the rate-limit check takes precedence). -/
theorem claim7_image_error_mapping :
    (∀ env o args,
      ((generateImage env o args).success = true ∧
        (generateImage env o args).error = none) ∨
      ((generateImage env o args).success = false ∧
        (generateImage env o args).error ≠ none)) ∧
    (∀ env o args, jsTruthy env.googleKey = false →
      (generateImage env o args).error = some imageNotConfiguredMessage) ∧
    (∀ env o args e, jsTruthy env.googleKey = true →
      generateImageInner o args = Except.error e →
      (strIncludes e "quota" || strIncludes e "rate") = true →
      (generateImage env o args).error = some rateLimitMessage) ∧
    (∀ env o args e, jsTruthy env.googleKey = true →
      generateImageInner o args = Except.error e →
      (strIncludes e "quota" || strIncludes e "rate") = false →
      (strIncludes e "safety" || strIncludes e "blocked") = true →
      (generateImage env o args).error = some safetyMessage) := by
  refine ⟨generateImage_discriminated, fun env o args hk => ?_,
    fun env o args e hk hi hr => ?_, fun env o args e hk hi hr hs => ?_⟩
  · simp [generateImage, hk, failResult]
  · simp [generateImage, hk, hi, hr, failResult]
  · simp [generateImage, hk, hi, hr, hs, failResult]

/-- WITNESS for C7 (amended): the mapping evaluated on concrete runs — a
missing key, a thrown rate-limit error, and a thrown pure safety error. -/
theorem claim7_image_error_mapping_witness :
    (generateImage imgEnvNoKey imgOracleOk imgArgsFlash).error =
      some imageNotConfiguredMessage ∧
    (generateImage imgEnvWithKey (imgOracleThrow "quota exceeded") imgArgsFlash).error =
      some rateLimitMessage ∧
    (generateImage imgEnvWithKey (imgOracleThrow "safety filter hit") imgArgsFlash).error =
      some safetyMessage :=
  ⟨claim7_image_error_mapping.2.1 imgEnvNoKey imgOracleOk imgArgsFlash (by decide),
   claim7_image_error_mapping.2.2.1 imgEnvWithKey (imgOracleThrow "quota exceeded")
     imgArgsFlash "quota exceeded" (by decide) rfl (by decide),
   claim7_image_error_mapping.2.2.2 imgEnvWithKey (imgOracleThrow "safety filter hit")
     imgArgsFlash "safety filter hit" (by decide) rfl (by decide) (by decide)⟩

/-! Concrete fixtures for chat-action witnesses. -/

/-- A chat environment with no provider credential configured. -/
def chatEnvNoKeys : Env :=
  { anthropicKey := none, openaiKey := none, googleKey := none
    promptStyle := none, promptCommunity := none, promptRules := none
    systemPromptEnv := none, firecrawlKey := none }

/-- A chat environment with only the Anthropic credential configured. -/
def chatEnvAnthropic : Env := { chatEnvNoKeys with anthropicKey := some "sk-ant" }

/-- An oracle whose provider call succeeds with a fixed reply. -/
def chatOracleOk : Oracles :=
  { scrape := fun _ => none
    storageUrl := fun _ => none
    providerCall := fun _ _ _ _ _ => Except.ok "Sure, here is a draft." }

/-- An oracle whose provider call throws a fixed error message. -/
def chatOracleThrow (e : String) : Oracles :=
  { scrape := fun _ => none
    storageUrl := fun _ => none
    providerCall := fun _ _ _ _ _ => Except.error e }

/-- A simple stored user message. -/
def sampleUserMsg (i : Nat) : ChatMessage :=
  { role := Role.user, content := "stored message " ++ toString i, attachments := none }

/-- A stored chat holding 25 messages, as in the spec scenario. -/
def chat25 : Chat := { messages := (List.range 25).map sampleUserMsg, pageContext := none }

/-- A database holding `chat25` under chat id 1. -/
def chatDb25 : Nat → Option Chat := fun i => if i = 1 then some chat25 else none

/-- A database holding no chat at all. -/
def chatDbEmpty : Nat → Option Chat := fun _ => none

/-- Concrete chat arguments: chat id 1, a plain user message, default model,
no page context, no attachments. -/
def chatArgs : GenArgs :=
  { chatId := 1, userMessage := "Please summarize this.", model := none
    pageContext := none, attachments := none }

/-- CLAIM C2. When the credential of the selected provider is absent,
`generateResponse` returns the provider-specific not-configured message,
persists exactly that string as the assistant message, and makes no provider
call; repeating the invocation against any later database state and any
oracle yields the identical result. -/
theorem claim2_not_configured (env : Env) (o : Oracles) (db : Nat → Option Chat)
    (args : GenArgs)
    (h : getApiKeyForProvider env (getProviderFromModel (selectedModelOf args)) = none) :
    generateResponse env o db args =
      Except.ok
        { returned := getNotConfiguredMessage (getProviderFromModel (selectedModelOf args))
          persisted := [getNotConfiguredMessage (getProviderFromModel (selectedModelOf args))]
          sent := none } ∧
    (∀ (db2 : Nat → Option Chat) (o2 : Oracles),
      generateResponse env o2 db2 args = generateResponse env o db args) := by
  constructor
  · simp only [generateResponse, h]
  · intro db2 o2
    simp only [generateResponse, h]

/-- WITNESS for C2: the missing-credential run on concrete inputs, and a
repeat invocation against a changed database and oracle returning the
identical result. -/
theorem claim2_not_configured_witness :
    generateResponse chatEnvNoKeys chatOracleOk chatDb25 chatArgs =
      Except.ok
        { returned := getNotConfiguredMessage (getProviderFromModel (selectedModelOf chatArgs))
          persisted := [getNotConfiguredMessage (getProviderFromModel (selectedModelOf chatArgs))]
          sent := none } ∧
    generateResponse chatEnvNoKeys (chatOracleThrow "boom") chatDbEmpty chatArgs =
      generateResponse chatEnvNoKeys chatOracleOk chatDb25 chatArgs :=
  ⟨(claim2_not_configured chatEnvNoKeys chatOracleOk chatDb25 chatArgs rfl).1,
   (claim2_not_configured chatEnvNoKeys chatOracleOk chatDb25 chatArgs rfl).2
     chatDbEmpty (chatOracleThrow "boom")⟩

/-- Helper: reassociation of the error-message concatenation, splitting off
the bold error marker from the error text. -/
theorem errorHeaderSplit (n e : String) :
    "**Error from " ++ n ++ ":** " ++ e =
      "**Error from " ++ n ++ ":**" ++ (" " ++ e) := by
  have h1 : (":**" : String) ++ " " = ":** " := rfl
  rw [String.append_assoc ("**Error from " ++ n) ":**" (" " ++ e),
    ← String.append_assoc ":**" " " e, h1,
    ← String.append_assoc ("**Error from " ++ n) ":** " e]

/-- CLAIM C3. When the provider call throws, `generateResponse` does not
propagate the error: it returns (and persists as the assistant turn) a
message carrying the bold error marker for the selected provider followed by
the thrown error text. -/
theorem claim3_provider_error (env : Env) (o : Oracles) (db : Nat → Option Chat)
    (args : GenArgs) (chat : Chat) (k e : String)
    (hkey : getApiKeyForProvider env (getProviderFromModel (selectedModelOf args)) = some k)
    (hchat : db args.chatId = some chat)
    (hcall : ∀ p key m sys msgs, o.providerCall p key m sys msgs = Except.error e) :
    ∃ r, generateResponse env o db args = Except.ok r ∧
      r.returned =
        "**Error from " ++ providerName (getProviderFromModel (selectedModelOf args)) ++
          ":** " ++ e ∧
      r.persisted = [r.returned] ∧
      (∃ rest, r.returned =
        "**Error from " ++ providerName (getProviderFromModel (selectedModelOf args)) ++
          ":**" ++ rest) ∧
      (∃ pre, r.returned = pre ++ e) := by
  have hres : generateResponse env o db args =
      Except.ok
        { returned :=
            "**Error from " ++ providerName (getProviderFromModel (selectedModelOf args)) ++
              ":** " ++ e
          persisted :=
            ["**Error from " ++ providerName (getProviderFromModel (selectedModelOf args)) ++
              ":** " ++ e]
          sent := some (getProviderFromModel (selectedModelOf args),
            buildFormattedMessages o.storageUrl chat.messages args.userMessage
              (processAttachments env o args.attachments)) } := by
    simp only [generateResponse, hkey, hchat, hcall]
  refine ⟨_, hres, rfl, rfl, ⟨" " ++ e, ?_⟩, ⟨_, rfl⟩⟩
  exact errorHeaderSplit (providerName (getProviderFromModel (selectedModelOf args))) e

/-- WITNESS for C3: a concrete run whose provider call throws `boom`. -/
theorem claim3_provider_error_witness :
    ∃ r, generateResponse chatEnvAnthropic (chatOracleThrow "boom") chatDb25 chatArgs =
        Except.ok r ∧
      r.returned =
        "**Error from " ++
          providerName (getProviderFromModel (selectedModelOf chatArgs)) ++ ":** " ++
          "boom" ∧
      r.persisted = [r.returned] ∧
      (∃ rest, r.returned =
        "**Error from " ++
          providerName (getProviderFromModel (selectedModelOf chatArgs)) ++ ":**" ++ rest) ∧
      (∃ pre, r.returned = pre ++ "boom") :=
  claim3_provider_error chatEnvAnthropic (chatOracleThrow "boom") chatDb25 chatArgs
    chat25 "sk-ant" "boom" rfl rfl (fun _ _ _ _ _ => rfl)

/-- COUNTEREXAMPLE to C9 as stated: not every input lets the actions return
a result rather than raise. With the Anthropic credential configured and a
chat id that resolves to no stored chat, `generateResponse` throws
`Chat not found` to its caller. -/
theorem claim9_counterexample :
    ¬ (∀ (env : Env) (o : Oracles) (db : Nat → Option Chat) (args : GenArgs),
        ∃ r, generateResponse env o db args = Except.ok r) := by
  intro h
  obtain ⟨r, hr⟩ := h chatEnvAnthropic chatOracleOk chatDbEmpty chatArgs
  rw [show generateResponse chatEnvAnthropic chatOracleOk chatDbEmpty chatArgs =
      Except.error "Chat not found" from rfl] at hr
  cases hr

/-- CLAIM C9 (amended). Every externally-facing action returns a structured
result or a human-readable message rather than raising, with one exception:
`generateResponse` raises `Chat not found` when its credential is present
and the chat id resolves to no stored chat. Whenever the chat exists, or the
credential is absent, `generateResponse` returns a message; `generateImage`
returns a discriminated success/failure result on every input. -/
theorem claim9_no_uncaught_errors :
    (∀ (env : Env) (o : Oracles) (db : Nat → Option Chat) (args : GenArgs)
      (chat : Chat), db args.chatId = some chat →
      ∃ r, generateResponse env o db args = Except.ok r) ∧
    (∀ (env : Env) (o : Oracles) (db : Nat → Option Chat) (args : GenArgs),
      getApiKeyForProvider env (getProviderFromModel (selectedModelOf args)) = none →
      ∃ r, generateResponse env o db args = Except.ok r) ∧
    (∀ env o args,
      ((generateImage env o args).success = true ∧
        (generateImage env o args).error = none) ∨
      ((generateImage env o args).success = false ∧
        (generateImage env o args).error ≠ none)) := by
  refine ⟨fun env o db args chat hchat => ?_, fun env o db args hk => ?_,
    generateImage_discriminated⟩
  · cases hres : generateResponse env o db args with
    | ok r => exact ⟨r, rfl⟩
    | error e =>
      exfalso
      cases hk : getApiKeyForProvider env (getProviderFromModel (selectedModelOf args)) with
      | none =>
        simp only [generateResponse, hk] at hres
        exact Except.noConfusion hres
      | some k =>
        simp only [generateResponse, hk, hchat] at hres
        exact Except.noConfusion hres
  · cases hres : generateResponse env o db args with
    | ok r => exact ⟨r, rfl⟩
    | error e =>
      exfalso
      simp only [generateResponse, hk] at hres
      exact Except.noConfusion hres

/-- WITNESS for C9 (amended): concrete runs with an existing chat, with a
missing credential, and a concrete image generation. -/
theorem claim9_no_uncaught_errors_witness :
    (∃ r, generateResponse chatEnvAnthropic chatOracleOk chatDb25 chatArgs =
      Except.ok r) ∧
    (∃ r, generateResponse chatEnvNoKeys chatOracleOk chatDbEmpty chatArgs =
      Except.ok r) ∧
    (((generateImage imgEnvWithKey imgOracleOk imgArgsFlash).success = true ∧
      (generateImage imgEnvWithKey imgOracleOk imgArgsFlash).error = none) ∨
    ((generateImage imgEnvWithKey imgOracleOk imgArgsFlash).success = false ∧
      (generateImage imgEnvWithKey imgOracleOk imgArgsFlash).error ≠ none)) :=
  ⟨claim9_no_uncaught_errors.1 chatEnvAnthropic chatOracleOk chatDb25 chatArgs
    chat25 rfl,
   claim9_no_uncaught_errors.2.1 chatEnvNoKeys chatOracleOk chatDbEmpty chatArgs rfl,
   claim9_no_uncaught_errors.2.2 imgEnvWithKey imgOracleOk imgArgsFlash⟩

/-- CLAIM C1. With the credential present and a stored chat of more than 20
messages, the message list handed to the provider is the translation of
exactly the 20 most recent stored messages, in stored order, followed by the
new user message as the final element. -/
theorem claim1_last_twenty (env : Env) (o : Oracles) (db : Nat → Option Chat)
    (args : GenArgs) (chat : Chat) (k : String)
    (hkey : getApiKeyForProvider env (getProviderFromModel (selectedModelOf args)) = some k)
    (hchat : db args.chatId = some chat)
    (hlen : 20 < chat.messages.length) :
    ∃ r, generateResponse env o db args = Except.ok r ∧
      ∃ sentMessages,
        r.sent = some (getProviderFromModel (selectedModelOf args), sentMessages) ∧
        sentMessages =
          (chat.messages.drop (chat.messages.length - 20)).map
            (formatHistoryMessage o.storageUrl) ++
          [newUserMessage o.storageUrl args.userMessage
            (processAttachments env o args.attachments)] ∧
        (chat.messages.drop (chat.messages.length - 20)).length = 20 ∧
        sentMessages.length = 21 ∧
        (∀ i, i < 20 → sentMessages[i]? =
          (chat.messages[chat.messages.length - 20 + i]?).map
            (formatHistoryMessage o.storageUrl)) ∧
        sentMessages.getLast? =
          some (newUserMessage o.storageUrl args.userMessage
            (processAttachments env o args.attachments)) := by
  have hd20 : (chat.messages.drop (chat.messages.length - 20)).length = 20 := by
    rw [List.length_drop]
    omega
  cases hres : generateResponse env o db args with
  | error e =>
    exfalso
    simp only [generateResponse, hkey, hchat] at hres
    exact Except.noConfusion hres
  | ok r =>
    refine ⟨r, rfl,
      (chat.messages.drop (chat.messages.length - 20)).map
          (formatHistoryMessage o.storageUrl) ++
        [newUserMessage o.storageUrl args.userMessage
          (processAttachments env o args.attachments)],
      ?_, rfl, hd20, ?_, ?_, ?_⟩
    · simp only [generateResponse, hkey, hchat] at hres
      injection hres with h
      rw [← h]
      rfl
    · simp only [List.length_append, List.length_map, List.length_singleton, hd20]
    · intro i hi
      have hlt : i < ((chat.messages.drop (chat.messages.length - 20)).map
          (formatHistoryMessage o.storageUrl)).length := by
        rw [List.length_map, hd20]
        exact hi
      rw [List.getElem?_append_left hlt, List.getElem?_map, List.getElem?_drop]
    · exact List.getLast?_concat _

/-- WITNESS for C1: the run on a concrete 25-message chat. -/
theorem claim1_last_twenty_witness :
    ∃ r, generateResponse chatEnvAnthropic chatOracleOk chatDb25 chatArgs =
        Except.ok r ∧
      ∃ sentMessages,
        r.sent = some (getProviderFromModel (selectedModelOf chatArgs), sentMessages) ∧
        sentMessages =
          (chat25.messages.drop (chat25.messages.length - 20)).map
            (formatHistoryMessage chatOracleOk.storageUrl) ++
          [newUserMessage chatOracleOk.storageUrl chatArgs.userMessage
            (processAttachments chatEnvAnthropic chatOracleOk chatArgs.attachments)] ∧
        (chat25.messages.drop (chat25.messages.length - 20)).length = 20 ∧
        sentMessages.length = 21 ∧
        (∀ i, i < 20 → sentMessages[i]? =
          (chat25.messages[chat25.messages.length - 20 + i]?).map
            (formatHistoryMessage chatOracleOk.storageUrl)) ∧
        sentMessages.getLast? =
          some (newUserMessage chatOracleOk.storageUrl chatArgs.userMessage
            (processAttachments chatEnvAnthropic chatOracleOk chatArgs.attachments)) :=
  claim1_last_twenty chatEnvAnthropic chatOracleOk chatDb25 chatArgs chat25 "sk-ant"
    rfl rfl (by decide)

end MarkdownSite
